import Mathlib

/-!
Verification of the pylox parsing-and-evaluation pipeline.

This file contains a shallow embedding of the pylox interpreter sources
(`src/error.py`, `src/environment.py`, `src/node.py`, `src/parser.py`,
`src/interpreter.py`) into Lean 4, together with theorems settling the
frozen claims about the specification.

Modelling conventions:
- Python floats are modelled as rationals.  Every claim that touches
  numbers involves only equality tests and small integer literals, on
  which rationals and IEEE doubles agree exactly.  Python raises
  `ZeroDivisionError` on float division by zero; we model that as a host
  error.
- Python dictionaries are modelled as insertion-ordered association
  lists with unique keys.
- Python exceptions are modelled explicitly: the lox `RuntimeError` and
  `ParseError` exceptions, which the code catches, are distinguished from
  host-language exceptions (`NameError`, `AttributeError`, `KeyError`,
  `TypeError`, `ZeroDivisionError`, `IndexError`, assertion failures),
  which the code does not catch.
- Mutation is modelled by explicit state passing.
-/

namespace Pylox

/-! ## Tokens (tokenizer.py: class TokenType, class Token) -/

inductive TokenType
  | LEFT_PAREN | RIGHT_PAREN | LEFT_BRACE | RIGHT_BRACE | COMMA | DOT
  | MINUS | PLUS | SEMICOLON | SLASH | STAR
  | BANG | BANG_EQUAL | EQUAL | EQUAL_EQUAL
  | GREATER | GREATER_EQUAL | LESS | LESS_EQUAL
  | AND | CLASS | ELSE | FALSE | FUN | FOR | IF | NIL | OR | PRINT
  | RETURN | SUPER | THIS | TRUE | VAR | WHILE | EOF
  | IDENTIFIER | STRING | NUMBER
  deriving DecidableEq, Repr

/-- Runtime values (spec section 3): float number, string, boolean, nil.
Python `None` is `nil`.  Numbers are modelled as rationals. -/
inductive Value
  | num (q : ℚ)
  | str (s : String)
  | bool (b : Bool)
  | nil
  deriving DecidableEq, Repr

/-- tokenizer.py `Token`: type, line, lexeme, literal.  The `literal`
attribute holds Python `None` (here `Value.nil`) except for number,
string, true/false and identifier tokens. -/
structure Token where
  type : TokenType
  line : Int
  lexeme : String
  literal : Value
  deriving DecidableEq, Repr

/-! ## Error handler (error.py: class ErrorHandler) -/

/-- error.py `ErrorHandler`: a bounded FIFO queue of formatted
diagnostics.  `limit` is the Python `__limit` attribute (an int, possibly
negative), `queue` the `__queue` list. -/
structure ErrorHandler where
  limit : Int
  queue : List String
  deriving DecidableEq, Repr

namespace ErrorHandler

/-- error.py `ErrorHandler.push`: reject when `len(queue) == limit`,
otherwise append `line n: text` (or bare `text` for negative lines) and
accept.  Returns the Python return value together with the new state. -/
def push (e : ErrorHandler) (line : Int) (error : String) : Bool × ErrorHandler :=
  if (e.queue.length : Int) = e.limit then
    (false, e)
  else
    let msg := if 0 ≤ line then "line " ++ toString line ++ ": " ++ error else error
    (true, { e with queue := e.queue ++ [msg] })

/-- error.py `ErrorHandler.grow`: add a positive increment to the limit. -/
def grow (e : ErrorHandler) (inc : Int) : Bool × ErrorHandler :=
  if 0 < inc then (true, { e with limit := e.limit + inc }) else (false, e)

/-- error.py `ErrorHandler.reset`. -/
def reset (e : ErrorHandler) : ErrorHandler :=
  { e with queue := [] }

/-- error.py `ErrorHandler.__bool__`: true when the queue is non-empty. -/
def nonempty (e : ErrorHandler) : Bool :=
  !e.queue.isEmpty

/-- A sequence of `push(line, text)` calls, returning the list of
acceptance results and the final handler state. -/
def pushAll : ErrorHandler → List (Int × String) → List Bool × ErrorHandler
  | e, [] => ([], e)
  | e, (l, t) :: rest =>
    let r := e.push l t
    let r2 := pushAll r.2 rest
    (r.1 :: r2.1, r2.2)

/-- The formatted message produced by a single accepted push. -/
def fmt (l : Int) (t : String) : String :=
  if 0 ≤ l then "line " ++ toString l ++ ": " ++ t else t

end ErrorHandler

/-! ## Environment (environment.py: class Environment)

An environment is a scope (an insertion-ordered map from names to
values) plus a parent reference; the chain from the current environment
up to the root is modelled as a list of scopes, current scope first,
root (global) scope last. -/

/-- A single Python dict mapping names to values, insertion ordered. -/
abbrev Scope := List (String × Value)

/-- Python dict lookup. -/
def scopeFind : Scope → String → Option Value
  | [], _ => none
  | (k, v) :: rest, key => if k = key then some v else scopeFind rest key

/-- Python dict assignment: overwrite in place if the key exists, else
append. -/
def scopeSet : Scope → String → Value → Scope
  | [], key, val => [(key, val)]
  | (k, v) :: rest, key, val =>
    if k = key then (k, val) :: rest else (k, v) :: scopeSet rest key val

/-- The chain of scopes from the current environment to the root. -/
abbrev EnvChain := List Scope

/-- environment.py `Environment.insert`: unconditional write into the
current scope. -/
def envInsert : EnvChain → String → Value → EnvChain
  | [], key, val => [[(key, val)]]
  | sc :: rest, key, val => scopeSet sc key val :: rest

/-- environment.py `Environment.search`: look in the current scope, else
recurse to the parent; `none` models the KeyError raised at the root. -/
def envSearch : EnvChain → String → Option Value
  | [], _ => none
  | sc :: rest, key =>
    match scopeFind sc key with
    | some v => some v
    | none => envSearch rest key

/-- environment.py `Environment.modify`: write only if the key already
exists in this scope, else recurse to the parent; `none` models the
KeyError raised when the root is reached without a match. -/
def envModify : EnvChain → String → Value → Option EnvChain
  | [], _, _ => none
  | sc :: rest, key, val =>
    if (scopeFind sc key).isSome then
      some (scopeSet sc key val :: rest)
    else
      (envModify rest key val).map (sc :: ·)

/-- Lookup of `key` restricted to the scope at position `i` of the chain
(0 = current scope). -/
def lookAt (c : EnvChain) (i : Nat) (key : String) : Option Value :=
  match c.get? i with
  | some sc => scopeFind sc key
  | none => none

/-! ## AST (node.py node classes, including the node classes parser.py
imports whose definitions are missing from node.py) -/

/-- Expression nodes: node.py `Literal`, `Variable`, `Unary`, `Binary`,
`Grouping`, `Assignment`, plus `Logical` (imported by parser.py from
node.py but not defined there) and `pyNone`, a Python `None` sitting in
an expression slot (parser.py stores `expr = None` as a dummy after a
trapped grammar error). -/
inductive Expr
  | literal (val : Token)
  | varRef (name : Token)
  | unary (operator : Token) (right : Expr)
  | binary (left : Expr) (operator : Token) (right : Expr)
  | logical (left : Expr) (operator : Token) (right : Expr)
  | grouping (val : Expr)
  | assignment (lval : Token) (rval : Expr)
  | pyNone
  deriving DecidableEq, Repr

/-- Statement nodes: node.py `Generic`, `Printer`,
`VariableDeclaration`, `Block`, plus `Branch` and `Loop` (imported by
parser.py from node.py but not defined there).  `Option` fields hold
Python `None` where parser.py stores it (dummy nodes after trapped
errors, missing else branches). -/
inductive Stmt
  | generic (e : Expr)
  | printer (e : Expr)
  | varDecl (name : Option Token) (initializer : Expr)
  | block (statements : List Stmt)
  | branch (condition : Expr) (thenBranch : Option Stmt) (elseBranch : Option Stmt)
  | loop (condition : Expr) (body : Option Stmt)
  deriving Repr

/-! ## Python value equality and truthiness -/

/-- The numeric value Python gives a boolean in comparisons. -/
def pyNumOfBool (b : Bool) : ℚ := if b then 1 else 0

/-- Python `==` restricted to lox runtime values: numbers compare
numerically, and booleans participate in numeric comparison
(`True == 1.0` and `False == 0.0` hold in Python); `None` equals only
`None`; all other cross-type comparisons are unequal. -/
def pyEq : Value → Value → Bool
  | .num x, .num y => decide (x = y)
  | .num x, .bool b => decide (x = pyNumOfBool b)
  | .bool b, .num y => decide (pyNumOfBool b = y)
  | .bool a, .bool b => a == b
  | .str s, .str t => s == t
  | .nil, .nil => true
  | _, _ => false

/-- node.py `Unary.interpret` for `!`: the test
`val == None or val == False` under Python equality. -/
def pyBang (v : Value) : Bool :=
  pyEq v .nil || pyEq v (.bool false)

/-- The runtime type tag of a value. -/
inductive PyType
  | numT | strT | boolT | nilT
  deriving DecidableEq, Repr

/-- Runtime type of a value. -/
def pytype : Value → PyType
  | .num _ => .numT
  | .str _ => .strT
  | .bool _ => .boolT
  | .nil => .nilT

/-- Whether one operand is a boolean and the other a number. -/
def isBoolNumPair : Value → Value → Bool
  | .bool _, .num _ => true
  | .num _, .bool _ => true
  | _, _ => false

/-- Modelled from the spec: the truthiness rule (falsy is exactly nil
and boolean false, everything else truthy) used by the `Logical`,
`Branch` and `Loop` node handlers, whose classes parser.py imports from
node.py but which node.py does not define. -/
def isTruthy : Value → Bool
  | .nil => false
  | .bool false => false
  | _ => true

/-! ## Exceptions and evaluation state -/

/-- Host-language (Python) exceptions that the interpreter code never
catches. -/
inductive HostErr
  | nameErr    -- NameError / UnboundLocalError
  | attrErr    -- AttributeError
  | zeroDiv    -- ZeroDivisionError
  | keyErr     -- KeyError escaping a lookup with no handler
  | typeErr    -- TypeError
  | indexErr   -- IndexError
  | assertErr  -- failed assert statement
  | fuelOut    -- artefact of the embedding: recursion fuel exhausted
  deriving DecidableEq, Repr

/-- Why an evaluation stopped: the lox `RuntimeError` exception (which
`Interpreter.interpret` catches) or an uncaught host exception. -/
inductive Halt
  | runtimeErr
  | host (e : HostErr)
  deriving DecidableEq, Repr

/-- Mutable state threaded through node.py `interpret` methods: the
error handler, the environment chain, and the text printed so far. -/
structure RunState where
  err : ErrorHandler
  env : EnvChain
  out : List String
  deriving DecidableEq, Repr

/-- Push a runtime diagnostic and raise the lox `RuntimeError`. -/
def pushRt (s : RunState) (line : Int) (msg : String) :
    Except Halt Value × RunState :=
  (Except.error Halt.runtimeErr, { s with err := (s.err.push line msg).2 })

/-- node.py `Binary.dispatch_float`: the float-only operator table.
Python raises ZeroDivisionError for float division by zero; an operator
missing from the table would raise KeyError. -/
def dispatchFloat (t : TokenType) (x y : ℚ) : Except Halt Value :=
  match t with
  | .PLUS => .ok (.num (x + y))
  | .MINUS => .ok (.num (x - y))
  | .STAR => .ok (.num (x * y))
  | .SLASH => if y = 0 then .error (Halt.host .zeroDiv) else .ok (.num (x / y))
  | .GREATER => .ok (.bool (decide (y < x)))
  | .LESS => .ok (.bool (decide (x < y)))
  | .GREATER_EQUAL => .ok (.bool (decide (y ≤ x)))
  | .LESS_EQUAL => .ok (.bool (decide (x ≤ y)))
  | _ => .error (Halt.host .keyErr)

/-- Modelled from the spec: the short-circuit rule of
`Logical.interpret`, whose class parser.py imports from node.py but
which node.py does not define.  Given the operator type and the value of
the left operand, `some v` means return `v` without evaluating the right
operand; `none` means evaluate and return the right operand.  Per the
spec: for `or` a truthy left value is returned directly, for `and` a
falsy left value is returned directly; the actual operand value is
returned, never a coerced boolean. -/
def logicalShortCircuit (t : TokenType) (v : Value) : Option Value :=
  if t = .OR then (if isTruthy v then some v else none)
  else if t = .AND then (if isTruthy v then none else some v)
  else some .nil

/-- The `interpret` methods of the expression node classes in node.py
(`Literal`, `Variable`, `Unary`, `Binary`, `Grouping`, `Assignment`),
evaluated left-to-right with explicit state.  The `logical` case is the
one expression class missing from node.py and defers to
`logicalShortCircuit`, modelled from the spec.  The `pyNone` case is
Python calling `.interpret` on `None` (AttributeError). -/
def evalExpr : Expr → RunState → Except Halt Value × RunState
  | .literal t, s => (.ok t.literal, s)
  | .varRef t, s =>
    match envSearch s.env t.lexeme with
    | some v => (.ok v, s)
    | none =>
      pushRt s t.line
        ("attempted to access undefined variable \x27" ++ t.lexeme ++ "\x27")
  | .unary op r, s =>
    match evalExpr r s with
    | (.error h, s') => (.error h, s')
    | (.ok v, s') =>
      if op.type = .MINUS then
        match v with
        | .num q => (.ok (.num (-q)), s')
        | _ => pushRt s' op.line "operand of \x27-\x27 must be a number"
      else if op.type = .BANG then
        (.ok (.bool (pyBang v)), s')
      else
        -- Python falls off the end of the method, returning None
        (.ok .nil, s')
  | .binary l op r, s =>
    match evalExpr l s with
    | (.error h, s') => (.error h, s')
    | (.ok lv, s₁) =>
      match evalExpr r s₁ with
      | (.error h, s') => (.error h, s')
      | (.ok rv, s₂) =>
        if op.type = .EQUAL_EQUAL then (.ok (.bool (pyEq lv rv)), s₂)
        else if op.type = .BANG_EQUAL then (.ok (.bool (!pyEq lv rv)), s₂)
        else
          match lv, rv with
          | .num x, .num y => (dispatchFloat op.type x y, s₂)
          | .str a, .str b =>
            if op.type = .PLUS then (.ok (.str (a ++ b)), s₂)
            else
              pushRt s₂ op.line
                ("cannot perform \x27" ++ op.lexeme ++ "\x27 on mismatched types")
          | _, _ =>
            pushRt s₂ op.line
              ("cannot perform \x27" ++ op.lexeme ++ "\x27 on mismatched types")
  | .grouping e, s => evalExpr e s
  | .assignment lv rv, s =>
    match evalExpr rv s with
    | (.error h, s') => (.error h, s')
    | (.ok v, s₁) =>
      match envModify s₁.env lv.lexeme v with
      | some env' => (.ok v, { s₁ with env := env' })
      | none =>
        pushRt s₁ lv.line
          ("variable \x27" ++ lv.lexeme ++ "\x27 not declared prior to assignment")
  | .logical l op r, s =>
    match evalExpr l s with
    | (.error h, s') => (.error h, s')
    | (.ok v, s₁) =>
      match logicalShortCircuit op.type v with
      | some w => (.ok w, s₁)
      | none => evalExpr r s₁
  | .pyNone, s => (.error (Halt.host .attrErr), s)

/-- Textual form Python `print` gives a lox value (`True`, `None`, raw
strings).  The exact decimal rendering of non-integral floats is not
modelled; no claim examines printed text. -/
def pyRepr : Value → String
  | .num q => if q.den = 1 then toString q.num ++ ".0" else toString q.num ++ "/" ++ toString q.den
  | .str s => s
  | .bool true => "True"
  | .bool false => "False"
  | .nil => "None"

/-- The `interpret` methods of the statement node classes in node.py
(`Generic`, `Printer`, `VariableDeclaration`, `Block`), with explicit
fuel for loops.  The `block` case follows node.py `Block.interpret`: a
child environment is created, then the loop header `for tree in
statements` reads the undefined global name `statements` (instead of
`self.statements`) and raises NameError; the child environment is
discarded unused and no statement of the block ever runs, so the
surrounding state is returned unchanged.  The `branch` and `loop` cases
are the two statement classes missing from node.py; they are modelled
from the spec (truthy condition runs the then branch or loop body,
falsy runs the else branch if present, loops re-evaluate the condition
each iteration). -/
def execStmt : Nat → Stmt → RunState → Except Halt Unit × RunState
  | 0, _, s => (.error (Halt.host .fuelOut), s)
  | fuel + 1, st, s =>
    match st with
    | .generic e =>
      match evalExpr e s with
      | (.error h, s') => (.error h, s')
      | (.ok _, s') => (.ok (), s')
    | .printer e =>
      match evalExpr e s with
      | (.error h, s') => (.error h, s')
      | (.ok v, s') => (.ok (), { s' with out := s'.out ++ [pyRepr v] })
    | .varDecl name init =>
      match name with
      | none => (.error (Halt.host .attrErr), s)
      | some t =>
        match evalExpr init s with
        | (.error h, s') => (.error h, s')
        | (.ok v, s') => (.ok (), { s' with env := envInsert s'.env t.lexeme v })
    | .block _ => (.error (Halt.host .nameErr), s)
    | .branch c thenB elseB =>
      match evalExpr c s with
      | (.error h, s') => (.error h, s')
      | (.ok v, s₁) =>
        if isTruthy v then
          match thenB with
          | none => (.ok (), s₁)
          | some t => execStmt fuel t s₁
        else
          match elseB with
          | none => (.ok (), s₁)
          | some t => execStmt fuel t s₁
    | .loop c body =>
      match evalExpr c s with
      | (.error h, s') => (.error h, s')
      | (.ok v, s₁) =>
        if isTruthy v then
          match body with
          | none => execStmt fuel (.loop c body) s₁
          | some b =>
            match execStmt fuel b s₁ with
            | (.error h, s') => (.error h, s')
            | (.ok _, s₂) => execStmt fuel (.loop c body) s₂
        else (.ok (), s₁)

/-- Execute a statement list in order, stopping at the first failure
(a raised exception propagates past the remaining statements). -/
def execStmts : Nat → List Stmt → RunState → Except Halt Unit × RunState
  | _, [], s => (.ok (), s)
  | fuel, st :: rest, s =>
    match execStmt fuel st s with
    | (.error h, s') => (.error h, s')
    | (.ok _, s') => execStmts fuel rest s'

/-! ## Parser (parser.py: class Parser)

Parser state is the token list, the current index `i`, and the error
handler.  A parser computation either returns a value with an updated
state, raises the lox `ParseError` (which `Parser.parse` catches), or
raises an uncaught host exception.  Recursion fuel makes termination
explicit; every concrete theorem supplies ample fuel. -/

structure PState where
  tokens : List Token
  i : Nat
  err : ErrorHandler
  deriving DecidableEq, Repr

inductive POut (α : Type)
  | ok (a : α) (s : PState)
  | perr (s : PState)
  | herr (e : HostErr) (s : PState)

def PRes (α : Type) := PState → POut α

/-- Return a value, leaving the parser state unchanged. -/
def PRes.pureF {α : Type} (a : α) : PRes α := fun s => .ok a s

/-- Sequence two parser computations; a raised exception propagates. -/
def PRes.bindF {α β : Type} (m : PRes α) (f : α → PRes β) : PRes β := fun s =>
  match m s with
  | .ok a s' => f a s'
  | .perr s' => .perr s'
  | .herr e s' => .herr e s'

instance : Monad PRes where
  pure := PRes.pureF
  bind := PRes.bindF

namespace Parser

/-- Out-of-fuel sentinel (artefact of the embedding). -/
def fuelErr {α : Type} : PRes α := fun s => .herr .fuelOut s

/-- Python `UnboundLocalError`: a local read before assignment (the
`primary` end-of-file branch leaves `expr` unassigned). -/
def unboundLocal {α : Type} : PRes α := fun s => .herr .nameErr s

/-- parser.py `Parser.curr_token`: fetch `self.tokens[self.i]`. -/
def curr_token : PRes Token := fun s =>
  match s.tokens.get? s.i with
  | some t => .ok t s
  | none => .herr .indexErr s

/-- parser.py `Parser.curr_type`. -/
def curr_type : PRes TokenType := do
  let t ← curr_token
  pure t.type

/-- parser.py `Parser.advance`: `assert(self.i + 1 < len(self.tokens))`
then increment. -/
def advance : PRes Unit := fun s =>
  if s.i + 1 < s.tokens.length then .ok () { s with i := s.i + 1 }
  else .herr .assertErr s

/-- parser.py `Parser.prev_token`: `assert(self.i - 1 >= 0)` then fetch
`self.tokens[self.i - 1]`. -/
def prev_token : PRes Token := fun s =>
  if 1 ≤ s.i then
    match s.tokens.get? (s.i - 1) with
    | some t => .ok t s
    | none => .herr .indexErr s
  else .herr .assertErr s

/-- The synchronization keyword set of parser.py `Parser.trap`. -/
def isSyncType (t : TokenType) : Bool :=
  t = .CLASS || t = .FUN || t = .VAR || t = .FOR || t = .IF || t = .WHILE ||
  t = .PRINT || t = .RETURN

/-- The synchronization loop of parser.py `Parser.trap`: skip tokens
until one can start a declaration or statement; at the end marker raise
`ParseError`. -/
def sync : Nat → PRes Unit
  | 0 => fuelErr
  | fuel + 1 => fun s =>
    match s.tokens.get? s.i with
    | none => .herr .indexErr s
    | some tok =>
      if isSyncType tok.type then .ok () s
      else if tok.type = .EOF then .perr s
      else if s.i + 1 < s.tokens.length then sync fuel { s with i := s.i + 1 }
      else .herr .assertErr s

/-- parser.py `Parser.trap`: push a diagnostic keyed by the current
token line, then synchronize.  When the push is rejected at capacity
the code runs `self.err.grow(1)` and then reads the nonexistent
attribute `self.error`, raising AttributeError — the sentinel
"additional errors found (hidden)" line is never reached. -/
def trap (fuel : Nat) (msg : String) : PRes Unit := fun s =>
  match s.tokens.get? s.i with
  | none => .herr .indexErr s
  | some tok =>
    if (s.err.push tok.line msg).1 then
      sync fuel { s with err := (s.err.push tok.line msg).2 }
    else
      .herr .attrErr { s with err := (((s.err.push tok.line msg).2).grow 1).2 }

/-- parser.py `Parser.check_semicolon`. -/
def check_semicolon (fuel : Nat) : PRes Unit := do
  let t ← curr_type
  if t = .SEMICOLON then advance
  else do
    let tok ← curr_token
    if tok.type = .EOF then trap fuel "expected \x27;\x27 at end of file"
    else trap fuel ("expected \x27;\x27 before " ++ tok.lexeme)

mutual

/-- parser.py `Parser.program`: `<program> := <declaration>* EOF`. -/
def program : Nat → PRes (List Stmt)
  | 0 => fuelErr
  | fuel + 1 => do
    let t ← curr_type
    if t = .EOF then pure []
    else do
      let d ← declaration fuel
      let rest ← program fuel
      pure (d :: rest)

/-- parser.py `Parser.declaration`. -/
def declaration : Nat → PRes Stmt
  | 0 => fuelErr
  | fuel + 1 => do
    let t ← curr_type
    if t = .VAR then do
      advance
      var_declaration fuel
    else statement fuel

/-- parser.py `Parser.var_declaration`: a missing initializer defaults
to a literal-nil token with line -1. -/
def var_declaration : Nat → PRes Stmt
  | 0 => fuelErr
  | fuel + 1 => do
    let t ← curr_type
    if t = .IDENTIFIER then do
      let name ← curr_token
      advance
      let t2 ← curr_type
      let initializer ← if t2 = .EQUAL then do
          advance
          expression fuel
        else pure (Expr.literal ⟨.NIL, -1, "nil", .nil⟩)
      check_semicolon fuel
      pure (Stmt.varDecl (some name) initializer)
    else do
      trap fuel "missing variable identifier"
      pure (Stmt.varDecl none (Expr.literal ⟨.NIL, -1, "nil", .nil⟩))

/-- parser.py `Parser.statement`. -/
def statement : Nat → PRes Stmt
  | 0 => fuelErr
  | fuel + 1 => do
    let t ← curr_type
    if t = .PRINT then do
      advance
      print_stmt fuel
    else if t = .LEFT_BRACE then do
      advance
      let l ← block_stmt fuel
      pure (Stmt.block l)
    else if t = .IF then do
      advance
      branch_stmt fuel
    else if t = .WHILE then do
      advance
      while_stmt fuel
    else generic_stmt fuel

/-- parser.py `Parser.print_stmt`. -/
def print_stmt : Nat → PRes Stmt
  | 0 => fuelErr
  | fuel + 1 => do
    let e ← expression fuel
    check_semicolon fuel
    pure (Stmt.printer e)

/-- parser.py `Parser.block_stmt`: collect declarations until the
closing brace.  The loop `while curr != RIGHT_BRACE` can only exit with
the current token equal to the right brace (at the end marker the
declaration call traps and panics), so the post-loop error branches are
unreachable and exiting consumes the brace. -/
def block_stmt : Nat → PRes (List Stmt)
  | 0 => fuelErr
  | fuel + 1 => do
    let t ← curr_type
    if t = .RIGHT_BRACE then do
      advance
      pure []
    else do
      let d ← declaration fuel
      let rest ← block_stmt fuel
      pure (d :: rest)

/-- parser.py `Parser.branch_stmt`: trapped errors return the dummy
node `Branch(None, None, None)`. -/
def branch_stmt : Nat → PRes Stmt
  | 0 => fuelErr
  | fuel + 1 => do
    let t ← curr_type
    if t ≠ .LEFT_PAREN then do
      trap fuel "expected open parenthesis after \x27if\x27"
      pure (Stmt.branch Expr.pyNone none none)
    else do
      advance
      let condition ← expression fuel
      let t2 ← curr_type
      if t2 ≠ .RIGHT_PAREN then do
        trap fuel "expected close parenthesis after condition"
        pure (Stmt.branch Expr.pyNone none none)
      else do
        advance
        let thenB ← statement fuel
        let t3 ← curr_type
        if t3 = .ELSE then do
          advance
          let elseB ← statement fuel
          pure (Stmt.branch condition (some thenB) (some elseB))
        else pure (Stmt.branch condition (some thenB) none)

/-- parser.py `Parser.while_stmt` (its open-parenthesis diagnostic
reuses the wording of the if-statement diagnostic). -/
def while_stmt : Nat → PRes Stmt
  | 0 => fuelErr
  | fuel + 1 => do
    let t ← curr_type
    if t ≠ .LEFT_PAREN then do
      trap fuel "expected open parenthesis after \x27if\x27"
      pure (Stmt.loop Expr.pyNone none)
    else do
      advance
      let condition ← expression fuel
      let t2 ← curr_type
      if t2 ≠ .RIGHT_PAREN then do
        trap fuel "expected close parenthesis after condition"
        pure (Stmt.loop Expr.pyNone none)
      else do
        advance
        let body ← statement fuel
        pure (Stmt.loop condition (some body))

/-- parser.py `Parser.generic_stmt`. -/
def generic_stmt : Nat → PRes Stmt
  | 0 => fuelErr
  | fuel + 1 => do
    let e ← expression fuel
    check_semicolon fuel
    pure (Stmt.generic e)

/-- parser.py `Parser.expression`: `<expression> := <assignment>`. -/
def expression : Nat → PRes Expr
  | 0 => fuelErr
  | fuel + 1 => assignment fuel

/-- parser.py `Parser.assignment`: a non-variable left side of `=` is
trapped, and the left expression is returned as a dummy. -/
def assignment : Nat → PRes Expr
  | 0 => fuelErr
  | fuel + 1 => do
    let lval ← logical_or fuel
    let t ← curr_type
    if t = .EQUAL then do
      advance
      let rval ← assignment fuel
      match lval with
      | .varRef name => pure (Expr.assignment name rval)
      | _ => do
        trap fuel "assignment target is not an l-value"
        pure lval
    else pure lval

/-- parser.py `Parser.logical_or`: despite the starred grammar in its
docstring, the code consumes at most one `or` (an `if`, not a loop). -/
def logical_or : Nat → PRes Expr
  | 0 => fuelErr
  | fuel + 1 => do
    let e ← logical_and fuel
    let t ← curr_type
    if t = .OR then do
      advance
      let tok ← prev_token
      let right ← logical_and fuel
      pure (Expr.logical e tok right)
    else pure e

/-- parser.py `Parser.logical_and`: despite the starred grammar in its
docstring, the code recurses into itself for the right operand (an
`if`, not a loop), producing a right-associated tree. -/
def logical_and : Nat → PRes Expr
  | 0 => fuelErr
  | fuel + 1 => do
    let e ← equality fuel
    let t ← curr_type
    if t = .AND then do
      advance
      let tok ← prev_token
      let right ← logical_and fuel
      pure (Expr.logical e tok right)
    else pure e

/-- parser.py `Parser.equality`: parse one operand, then loop. -/
def equality : Nat → PRes Expr
  | 0 => fuelErr
  | fuel + 1 => do
    let e ← comparison fuel
    equality_loop fuel e

/-- The `while self.curr_type() in types` loop of `Parser.equality`,
accumulating left-associated `Binary` nodes. -/
def equality_loop : Nat → Expr → PRes Expr
  | 0, _ => fuelErr
  | fuel + 1, acc => do
    let t ← curr_type
    if t = .EQUAL_EQUAL || t = .BANG_EQUAL then do
      advance
      let op ← prev_token
      let right ← comparison fuel
      equality_loop fuel (Expr.binary acc op right)
    else pure acc

/-- parser.py `Parser.comparison`: parse one operand, then loop. -/
def comparison : Nat → PRes Expr
  | 0 => fuelErr
  | fuel + 1 => do
    let e ← term fuel
    comparison_loop fuel e

/-- The operator loop of `Parser.comparison`. -/
def comparison_loop : Nat → Expr → PRes Expr
  | 0, _ => fuelErr
  | fuel + 1, acc => do
    let t ← curr_type
    if t = .GREATER || t = .GREATER_EQUAL || t = .LESS || t = .LESS_EQUAL then do
      advance
      let op ← prev_token
      let right ← term fuel
      comparison_loop fuel (Expr.binary acc op right)
    else pure acc

/-- parser.py `Parser.term`: parse one operand, then loop. -/
def term : Nat → PRes Expr
  | 0 => fuelErr
  | fuel + 1 => do
    let e ← factor fuel
    term_loop fuel e

/-- The operator loop of `Parser.term`. -/
def term_loop : Nat → Expr → PRes Expr
  | 0, _ => fuelErr
  | fuel + 1, acc => do
    let t ← curr_type
    if t = .PLUS || t = .MINUS then do
      advance
      let op ← prev_token
      let right ← factor fuel
      term_loop fuel (Expr.binary acc op right)
    else pure acc

/-- parser.py `Parser.factor`: parse one operand, then loop. -/
def factor : Nat → PRes Expr
  | 0 => fuelErr
  | fuel + 1 => do
    let e ← unary fuel
    factor_loop fuel e

/-- The operator loop of `Parser.factor`. -/
def factor_loop : Nat → Expr → PRes Expr
  | 0, _ => fuelErr
  | fuel + 1, acc => do
    let t ← curr_type
    if t = .STAR || t = .SLASH then do
      advance
      let op ← prev_token
      let right ← unary fuel
      factor_loop fuel (Expr.binary acc op right)
    else pure acc

/-- parser.py `Parser.unary`. -/
def unary : Nat → PRes Expr
  | 0 => fuelErr
  | fuel + 1 => do
    let t ← curr_type
    if t = .BANG || t = .MINUS then do
      advance
      let op ← prev_token
      let right ← unary fuel
      pure (Expr.unary op right)
    else primary fuel

/-- parser.py `Parser.primary`.  On the end-of-file branch the trap
always panics or crashes; were it to return, the local `expr` would be
read unassigned (UnboundLocalError), modelled by `unboundLocal`. -/
def primary : Nat → PRes Expr
  | 0 => fuelErr
  | fuel + 1 => do
    let t ← curr_type
    if t = .NUMBER || t = .STRING || t = .NIL || t = .TRUE || t = .FALSE then do
      let tok ← curr_token
      advance
      pure (Expr.literal tok)
    else if t = .LEFT_PAREN then do
      advance
      let e ← expression fuel
      let t2 ← curr_type
      if t2 = .RIGHT_PAREN then do
        advance
        pure (Expr.grouping e)
      else do
        trap fuel "missing right parenthesis for grouped expression"
        pure (Expr.grouping e)
    else if t = .IDENTIFIER then do
      let tok ← curr_token
      advance
      pure (Expr.varRef tok)
    else if t = .EOF then do
      let tok ← prev_token
      trap fuel ("misplaced symbol \x27" ++ tok.lexeme ++ "\x27 at end of file")
      unboundLocal
    else do
      let tok ← curr_token
      trap fuel ("misplaced symbol \x27" ++ tok.lexeme ++ "\x27")
      pure Expr.pyNone

end

/-- parser.py `Parser.parse`: run `program` on a fresh state whose
error handler has the given limit, catching `ParseError`. -/
def parse (fuel : Nat) (tokens : List Token) (limit : Int) :
    Except HostErr (Option (List Stmt) × ErrorHandler) :=
  match program fuel ⟨tokens, 0, ⟨limit, []⟩⟩ with
  | .ok l s => .ok (some l, s.err)
  | .perr s => .ok (none, s.err)
  | .herr e _ => .error e

/-- The key invariant of panic-mode recovery: whenever a parser
computation raises `ParseError`, the error queue of the resulting state
is non-empty (`trap` pushes its diagnostic before synchronizing, and
the panic is raised only inside `sync`). -/
def Inv {α : Type} (m : PRes α) : Prop :=
  ∀ s s', m s = POut.perr s' → s'.err.queue ≠ []

end Parser

/-! ## Stale tree-walk interpreter (interpreter.py)

interpreter.py dispatches on `node.__class__.__name__` through
`jmp_table`, which holds handlers only for `Binary`, `Unary`, `Literal`
and `Grouping`; the driver pylox.py nevertheless hands `interpret` the
whole parsed program, a Python list of statement nodes. -/

/-- The Python object reaching `Interpreter.interpret` / `traverse`: an
expression node, a statement node, or the plain list holding the parsed
program. -/
inductive PyNode
  | expr (e : Expr)
  | stmt (st : Stmt)
  | list (l : List Stmt)

/-- `node.__class__.__name__`, the key used for the jump table. -/
def className : PyNode → String
  | .expr (.literal _) => "Literal"
  | .expr (.varRef _) => "Variable"
  | .expr (.unary ..) => "Unary"
  | .expr (.binary ..) => "Binary"
  | .expr (.logical ..) => "Logical"
  | .expr (.grouping _) => "Grouping"
  | .expr (.assignment ..) => "Assignment"
  | .expr .pyNone => "NoneType"
  | .stmt (.generic _) => "Generic"
  | .stmt (.printer _) => "Printer"
  | .stmt (.varDecl ..) => "VariableDeclaration"
  | .stmt (.block _) => "Block"
  | .stmt (.branch ..) => "Branch"
  | .stmt (.loop ..) => "Loop"
  | .list _ => "list"

/-- interpreter.py `Interpreter.bin_table` (no `PLUS` entry; a missing
operator would raise KeyError; float division by zero raises
ZeroDivisionError). -/
def binTable (t : TokenType) (x y : ℚ) : Except Halt Value :=
  match t with
  | .MINUS => .ok (.num (x - y))
  | .STAR => .ok (.num (x * y))
  | .SLASH => if y = 0 then .error (Halt.host .zeroDiv) else .ok (.num (x / y))
  | .GREATER => .ok (.bool (decide (y < x)))
  | .LESS => .ok (.bool (decide (x < y)))
  | .GREATER_EQUAL => .ok (.bool (decide (y ≤ x)))
  | .LESS_EQUAL => .ok (.bool (decide (x ≤ y)))
  | _ => .error (Halt.host .keyErr)

/-- interpreter.py `Interpreter.traverse` plus the four `handle_*`
methods reachable through `jmp_table`; any other class name raises
KeyError.  In `handle_binary` the mismatched-type branch calls
`self.err.push(msg)` with one argument instead of two, raising a host
TypeError before any diagnostic is queued. -/
def traverse : Nat → PyNode → ErrorHandler → Except Halt Value × ErrorHandler
  | 0, _, e => (.error (Halt.host .fuelOut), e)
  | fuel + 1, n, e =>
    match n with
    | .expr (.literal t) => (.ok t.literal, e)
    | .expr (.grouping v) => traverse fuel (.expr v) e
    | .expr (.unary op r) =>
      match traverse fuel (.expr r) e with
      | (.error h, e') => (.error h, e')
      | (.ok v, e') =>
        if op.type = .MINUS then
          match v with
          | .num q => (.ok (.num (-q)), e')
          | _ =>
            (.error Halt.runtimeErr,
             (e'.push op.line "operand of \x27-\x27 must be a number").2)
        else if op.type = .BANG then (.ok (.bool (pyBang v)), e')
        else (.ok .nil, e')
    | .expr (.binary l op r) =>
      match traverse fuel (.expr l) e with
      | (.error h, e') => (.error h, e')
      | (.ok lv, e₁) =>
        match traverse fuel (.expr r) e₁ with
        | (.error h, e') => (.error h, e')
        | (.ok rv, e₂) =>
          if op.type = .EQUAL_EQUAL then (.ok (.bool (pyEq lv rv)), e₂)
          else if op.type = .BANG_EQUAL then (.ok (.bool (!pyEq lv rv)), e₂)
          else if op.type = .PLUS then
            match lv, rv with
            | .num x, .num y => (.ok (.num (x + y)), e₂)
            | .str a, .str b => (.ok (.str (a ++ b)), e₂)
            | _, _ => (.error (Halt.host .typeErr), e₂)
          else
            match lv, rv with
            | .num x, .num y => (binTable op.type x y, e₂)
            | _, _ => (.error (Halt.host .typeErr), e₂)
    | _ => (.error (Halt.host .keyErr), e)

/-- interpreter.py `Interpreter.interpret`: the interpreter is
constructed with `ErrorHandler(1)`; `interpret` traverses the argument,
catching the lox RuntimeError (failure reported through the handler)
and KeyError (the internal missing-handler diagnostic, formatted with
the class name of the top-level argument); all other host exceptions
escape uncaught. -/
def Interpreter.interpret (fuel : Nat) (node : PyNode) :
    Except HostErr (Option Value × ErrorHandler) :=
  match traverse fuel node ⟨1, []⟩ with
  | (.ok v, e) => .ok (some v, e)
  | (.error Halt.runtimeErr, e) => .ok (none, e)
  | (.error (Halt.host .keyErr), e) =>
    .ok (none, (e.push (-1)
      ("(INTERNAL ERROR) node " ++ className node ++ " not in jump table")).2)
  | (.error (Halt.host h), _) => .error h

/-! ## Concrete tokens and programs used by counterexamples and
witnesses.  Identifier tokens carry their own lexeme as literal and
true/false keywords carry their boolean, exactly as the tokenizer
produces them.  The end-marker token carries Python `None` as lexeme
and literal; no theorem reads either field of it. -/

def tokNum1 : Token := ⟨.NUMBER, 1, "1", .num 1⟩
def tokNum0 : Token := ⟨.NUMBER, 1, "0", .num 0⟩
def tokNum2 : Token := ⟨.NUMBER, 1, "2", .num 2⟩
def tokNum3 : Token := ⟨.NUMBER, 1, "3", .num 3⟩
def tokStr1 : Token := ⟨.STRING, 1, "\x221\x22", .str "1"⟩
def tokTrue : Token := ⟨.TRUE, 1, "true", .bool true⟩
def tokFalse : Token := ⟨.FALSE, 1, "false", .bool false⟩
def tokAnd : Token := ⟨.AND, 1, "and", .nil⟩
def tokOr : Token := ⟨.OR, 1, "or", .nil⟩
def tokSlash : Token := ⟨.SLASH, 1, "/", .nil⟩
def tokBang : Token := ⟨.BANG, 1, "!", .nil⟩
def tokEqEq : Token := ⟨.EQUAL_EQUAL, 1, "==", .nil⟩
def tokX : Token := ⟨.IDENTIFIER, 1, "x", .str "x"⟩
def tokSemi : Token := ⟨.SEMICOLON, 1, ";", .nil⟩
def tokVar : Token := ⟨.VAR, 1, "var", .nil⟩
def tokEq : Token := ⟨.EQUAL, 1, "=", .nil⟩
def tokPrint : Token := ⟨.PRINT, 1, "print", .nil⟩
def tokEOF : Token := ⟨.EOF, 1, "", .nil⟩

/-- Tokenizer output for `1 and 2 and 3;`. -/
def c4AndToks : List Token :=
  [tokNum1, tokAnd, tokNum2, tokAnd, tokNum3, tokSemi, tokEOF]

/-- Tokenizer output for `1 or 2 or 3;`. -/
def c4OrToks : List Token :=
  [tokNum1, tokOr, tokNum2, tokOr, tokNum3, tokSemi, tokEOF]

/-- Tokenizer output for `1 == 2 == 3;`. -/
def c4EqToks : List Token :=
  [tokNum1, tokEqEq, tokNum2, tokEqEq, tokNum3, tokSemi, tokEOF]

/-- Tokenizer output for `; var x = 1;` — one malformed statement
followed by a well-formed declaration. -/
def c7Toks : List Token :=
  [tokSemi, tokVar, tokX, tokEq, tokNum1, tokSemi, tokEOF]

/-- Tokenizer output for `; print 1;` — two grammar diagnostics are
attempted when parsing it. -/
def c8Toks : List Token :=
  [tokSemi, tokPrint, tokNum1, tokSemi, tokEOF]

def tokMinus : Token := ⟨.MINUS, 1, "-", .nil⟩

/-- Tokenizer output for `3 -` — a grammar error at the end of file,
leading to unresolved panic. -/
def c7PanicToks : List Token :=
  [tokNum3, tokMinus, tokEOF]

/-- A fresh run state: parser-default error handler, one empty global
scope, no output. -/
def initState : RunState := ⟨⟨10, []⟩, [[]], []⟩

/-- The AST the parser builds for `var x = 1; { var x = 2; } print x;`
(the scoping example of the spec). -/
def c2Program : List Stmt :=
  [ .varDecl (some tokX) (.literal tokNum1),
    .block [.varDecl (some tokX) (.literal tokNum2)],
    .printer (.varRef tokX) ]

/-- The AST the parser builds for the expression `(1/0)`. -/
def c3DivExpr : Expr :=
  .grouping (.binary (.literal tokNum1) tokSlash (.literal tokNum0))

/-! ### Environment lemmas -/

theorem scopeFind_scopeSet_self (sc : Scope) (k : String) (v : Value) :
    scopeFind (scopeSet sc k v) k = some v := by
  induction sc with
  | nil => simp [scopeSet, scopeFind]
  | cons hd tl ih =>
    obtain ⟨k', v'⟩ := hd
    by_cases h : k' = k
    · simp [scopeSet, scopeFind, h]
    · simp [scopeSet, scopeFind, h, ih]

theorem scopeFind_scopeSet_other (sc : Scope) (k k' : String) (v : Value)
    (hne : k' ≠ k) : scopeFind (scopeSet sc k v) k' = scopeFind sc k' := by
  have hne' : k ≠ k' := Ne.symm hne
  induction sc with
  | nil => simp [scopeSet, scopeFind, hne']
  | cons hd tl ih =>
    obtain ⟨k₀, v₀⟩ := hd
    by_cases h : k₀ = k
    · subst h
      simp [scopeSet, scopeFind, hne']
    · simp [scopeSet, scopeFind, h, ih]

theorem isSome_scopeFind_scopeSet (sc : Scope) (k k' : String) (v : Value)
    (hb : (scopeFind sc k).isSome) :
    (scopeFind (scopeSet sc k v) k').isSome = (scopeFind sc k').isSome := by
  by_cases h : k' = k
  · subst h
    simp [scopeFind_scopeSet_self, hb]
  · simp [scopeFind_scopeSet_other sc k k' v h]

theorem lookAt_cons_zero (sc : Scope) (rest : EnvChain) (key : String) :
    lookAt (sc :: rest) 0 key = scopeFind sc key := rfl

theorem lookAt_cons_succ (sc : Scope) (rest : EnvChain) (i : Nat) (key : String) :
    lookAt (sc :: rest) (i + 1) key = lookAt rest i key := rfl

theorem envModify_none_iff (c : EnvChain) (k : String) (v : Value) :
    envModify c k v = none ↔ envSearch c k = none := by
  induction c with
  | nil => simp [envModify, envSearch]
  | cons sc rest ih =>
    by_cases hb : (scopeFind sc k).isSome
    · obtain ⟨w, hw⟩ := Option.isSome_iff_exists.mp hb
      simp [envModify, envSearch, hb, hw]
    · have hn : scopeFind sc k = none := Option.not_isSome_iff_eq_none.mp hb
      simp [envModify, envSearch, hb, hn, ih]

theorem envSearch_envModify (c : EnvChain) (k : String) (v : Value)
    (c' : EnvChain) (h : envModify c k v = some c') :
    envSearch c' k = some v := by
  induction c generalizing c' with
  | nil => simp [envModify] at h
  | cons sc rest ih =>
    by_cases hb : (scopeFind sc k).isSome
    · simp only [envModify, hb, if_pos, Option.some.injEq] at h
      subst h
      simp [envSearch, scopeFind_scopeSet_self]
    · have hn : scopeFind sc k = none := Option.not_isSome_iff_eq_none.mp hb
      simp only [envModify, hb, if_neg, Option.map_eq_some', Bool.false_eq_true,
        if_false] at h
      obtain ⟨rest', hr, hc⟩ := h
      subst hc
      simp [envSearch, hn, ih rest' hr]

theorem envModify_length (c : EnvChain) (k : String) (v : Value)
    (c' : EnvChain) (h : envModify c k v = some c') :
    c'.length = c.length := by
  induction c generalizing c' with
  | nil => simp [envModify] at h
  | cons sc rest ih =>
    by_cases hb : (scopeFind sc k).isSome
    · simp only [envModify, hb, if_pos, Option.some.injEq] at h
      subst h
      simp
    · simp only [envModify, hb, Bool.false_eq_true, if_false,
        Option.map_eq_some'] at h
      obtain ⟨rest', hr, hc⟩ := h
      subst hc
      simp [ih rest' hr]

theorem envModify_other_keys (c : EnvChain) (k : String) (v : Value)
    (c' : EnvChain) (h : envModify c k v = some c') (i : Nat) (k' : String)
    (hne : k' ≠ k) : lookAt c' i k' = lookAt c i k' := by
  induction c generalizing c' i with
  | nil => simp [envModify] at h
  | cons sc rest ih =>
    by_cases hb : (scopeFind sc k).isSome
    · simp only [envModify, hb, if_pos, Option.some.injEq] at h
      subst h
      cases i with
      | zero => simp [lookAt_cons_zero, scopeFind_scopeSet_other sc k k' v hne]
      | succ j => rfl
    · simp only [envModify, hb, Bool.false_eq_true, if_false,
        Option.map_eq_some'] at h
      obtain ⟨rest', hr, hc⟩ := h
      subst hc
      cases i with
      | zero => rfl
      | succ j => simpa [lookAt_cons_succ] using ih rest' hr j

theorem envModify_preserves_bound (c : EnvChain) (k : String) (v : Value)
    (c' : EnvChain) (h : envModify c k v = some c') (i : Nat) (k' : String) :
    (lookAt c' i k').isSome = (lookAt c i k').isSome := by
  induction c generalizing c' i with
  | nil => simp [envModify] at h
  | cons sc rest ih =>
    by_cases hb : (scopeFind sc k).isSome
    · simp only [envModify, hb, if_pos, Option.some.injEq] at h
      subst h
      cases i with
      | zero => simpa [lookAt_cons_zero] using isSome_scopeFind_scopeSet sc k k' v hb
      | succ j => rfl
    · simp only [envModify, hb, Bool.false_eq_true, if_false,
        Option.map_eq_some'] at h
      obtain ⟨rest', hr, hc⟩ := h
      subst hc
      cases i with
      | zero => rfl
      | succ j => simpa [lookAt_cons_succ] using ih rest' hr j

theorem envModify_nearest (c : EnvChain) (k : String) (v : Value)
    (c' : EnvChain) (h : envModify c k v = some c') :
    ∃ i, (∀ j, j < i → lookAt c j k = none)
      ∧ (lookAt c i k).isSome
      ∧ lookAt c' i k = some v
      ∧ (∀ j, j ≠ i → lookAt c' j k = lookAt c j k) := by
  induction c generalizing c' with
  | nil => simp [envModify] at h
  | cons sc rest ih =>
    by_cases hb : (scopeFind sc k).isSome
    · simp only [envModify, hb, if_pos, Option.some.injEq] at h
      subst h
      refine ⟨0, by omega, by simpa [lookAt_cons_zero] using hb,
        by simp [lookAt_cons_zero, scopeFind_scopeSet_self], ?_⟩
      intro j hj
      cases j with
      | zero => exact absurd rfl hj
      | succ j₀ => rfl
    · have hn : scopeFind sc k = none := Option.not_isSome_iff_eq_none.mp hb
      simp only [envModify, hb, Bool.false_eq_true, if_false,
        Option.map_eq_some'] at h
      obtain ⟨rest', hr, hc⟩ := h
      subst hc
      obtain ⟨i, hbelow, hat, hnew, hother⟩ := ih rest' hr
      refine ⟨i + 1, ?_, by simpa [lookAt_cons_succ] using hat,
        by simpa [lookAt_cons_succ] using hnew, ?_⟩
      · intro j hj
        cases j with
        | zero => simpa [lookAt_cons_zero] using hn
        | succ j₀ => simpa [lookAt_cons_succ] using hbelow j₀ (by omega)
      · intro j hj
        cases j with
        | zero => rfl
        | succ j₀ => simpa [lookAt_cons_succ] using hother j₀ (by omega)

/-- C9: `Environment.modify(name, value)` succeeds exactly when the name
is already bound somewhere in the current-scope-to-root chain, walking
the chain nearest-scope-first exactly like `search`; on success it
overwrites the binding in the nearest scope holding the name, leaves
every other binding of every scope untouched, and never creates or
removes a binding; when the name is bound nowhere it fails (the KeyError
that `Assignment.interpret` reports as an undeclared assignment target)
and no environment changes. -/
theorem c9_envModify_spec (chain : EnvChain) (k : String) (v : Value) :
    ((envModify chain k v).isSome ↔ (envSearch chain k).isSome)
    ∧ (envModify chain k v = none → envSearch chain k = none)
    ∧ (∀ chain', envModify chain k v = some chain' →
        envSearch chain' k = some v
        ∧ chain'.length = chain.length
        ∧ (∀ i k', (lookAt chain' i k').isSome = (lookAt chain i k').isSome)
        ∧ (∀ i k', k' ≠ k → lookAt chain' i k' = lookAt chain i k')
        ∧ (∃ i, (∀ j, j < i → lookAt chain j k = none)
             ∧ (lookAt chain i k).isSome
             ∧ lookAt chain' i k = some v
             ∧ (∀ j, j ≠ i → lookAt chain' j k = lookAt chain j k))) := by
  refine ⟨?_, ?_, ?_⟩
  · rw [← Option.ne_none_iff_isSome, ← Option.ne_none_iff_isSome]
    exact not_congr (envModify_none_iff chain k v)
  · exact (envModify_none_iff chain k v).mp
  · intro chain' h
    exact ⟨envSearch_envModify chain k v chain' h,
      envModify_length chain k v chain' h,
      fun i k' => envModify_preserves_bound chain k v chain' h i k',
      fun i k' hne => envModify_other_keys chain k v chain' h i k' hne,
      envModify_nearest chain k v chain' h⟩

/-- Witness for C9: a two-scope chain where `x` lives in the root scope
and the current scope holds only `y`; modifying `x` rewrites the root
binding. -/
theorem c9_envModify_spec_witness :
    envSearch [[("y", Value.num 2)], [("x", Value.num 5)]] "x" = some (Value.num 5)
    ∧ ([[("y", Value.num 2)], [("x", Value.num 5)]] : EnvChain).length
        = ([[("y", Value.num 2)], [("x", Value.num 1)]] : EnvChain).length
    ∧ (∀ i k', (lookAt [[("y", Value.num 2)], [("x", Value.num 5)]] i k').isSome
        = (lookAt [[("y", Value.num 2)], [("x", Value.num 1)]] i k').isSome)
    ∧ (∀ i k', k' ≠ "x" →
        lookAt [[("y", Value.num 2)], [("x", Value.num 5)]] i k'
        = lookAt [[("y", Value.num 2)], [("x", Value.num 1)]] i k')
    ∧ (∃ i, (∀ j, j < i → lookAt [[("y", Value.num 2)], [("x", Value.num 1)]] j "x" = none)
         ∧ (lookAt [[("y", Value.num 2)], [("x", Value.num 1)]] i "x").isSome
         ∧ lookAt [[("y", Value.num 2)], [("x", Value.num 5)]] i "x" = some (Value.num 5)
         ∧ (∀ j, j ≠ i → lookAt [[("y", Value.num 2)], [("x", Value.num 5)]] j "x"
             = lookAt [[("y", Value.num 2)], [("x", Value.num 1)]] j "x")) :=
  (c9_envModify_spec [[("y", Value.num 2)], [("x", Value.num 1)]] "x" (Value.num 5)).2.2
    [[("y", Value.num 2)], [("x", Value.num 5)]] (by decide)

/-- C10: an `ErrorHandler` constructed with a negative capacity limit is
unbounded: every `push(line, text)` in any sequence of pushes is
accepted and appends its formatted message to the queue. -/
theorem c10_negative_limit_unbounded (e : ErrorHandler) (xs : List (Int × String))
    (h : e.limit < 0) :
    (ErrorHandler.pushAll e xs).1 = List.replicate xs.length true
    ∧ (ErrorHandler.pushAll e xs).2
        = ⟨e.limit, e.queue ++ xs.map (fun p => ErrorHandler.fmt p.1 p.2)⟩ := by
  induction xs generalizing e with
  | nil => simp [ErrorHandler.pushAll]
  | cons hd tl ih =>
    obtain ⟨l, t⟩ := hd
    have hne : ((e.queue.length : Int) = e.limit) = False := by
      simp only [eq_iff_iff, iff_false]
      intro hlen
      omega
    have hpush : e.push l t
        = (true, { e with queue := e.queue ++ [ErrorHandler.fmt l t] }) := by
      simp [ErrorHandler.push, hne, ErrorHandler.fmt]
    have ih' := ih { e with queue := e.queue ++ [ErrorHandler.fmt l t] } h
    simp only [ErrorHandler.pushAll, hpush] at *
    exact ⟨by simp [ih'.1, List.replicate], by simp [ih'.2]⟩

/-- C2: the claim says a `Block` statement runs its contents in a fresh
child scope and that `var x = 1; { var x = 2; } print x;` leaves the
enclosing `x` at 1 and prints 1.  In the code, `Block.interpret`
iterates the undefined global name `statements` instead of
`self.statements`, so every block raises a host NameError before any
contained statement runs: after the block in the example program the
enclosing `x` is still 1, but nothing is printed and execution dies
with the host exception. -/
theorem c2_block_interpret_raises_name_error :
    (∀ fuel body s,
      execStmt (fuel + 1) (.block body) s = (.error (Halt.host .nameErr), s))
    ∧ execStmts 9 c2Program initState
      = (.error (Halt.host .nameErr), ⟨⟨10, []⟩, [[("x", Value.num 1)]], []⟩) :=
  ⟨fun _ _ _ => rfl, rfl⟩

/-- C3: `Logical` short-circuits — a falsy left operand of `and` (or a
truthy left operand of `or`) is returned as-is without the right
operand ever being evaluated; otherwise evaluation continues with the
right operand, whose value is returned unchanged. -/
theorem c3_logical_short_circuit :
    (∀ l op r s v s₁, evalExpr l s = (.ok v, s₁) → op.type = .AND →
        isTruthy v = false → evalExpr (.logical l op r) s = (.ok v, s₁))
    ∧ (∀ l op r s v s₁, evalExpr l s = (.ok v, s₁) → op.type = .OR →
        isTruthy v = true → evalExpr (.logical l op r) s = (.ok v, s₁))
    ∧ (∀ l op r s v s₁, evalExpr l s = (.ok v, s₁) → op.type = .AND →
        isTruthy v = true → evalExpr (.logical l op r) s = evalExpr r s₁)
    ∧ (∀ l op r s v s₁, evalExpr l s = (.ok v, s₁) → op.type = .OR →
        isTruthy v = false → evalExpr (.logical l op r) s = evalExpr r s₁) := by
  refine ⟨?_, ?_, ?_, ?_⟩ <;>
    · intro l op r s v s₁ hl hop ht
      simp [evalExpr, hl, hop, logicalShortCircuit, ht]

/-- Witness for C3: `false and (1/0)` evaluates to the left operand
value `false`, while the right operand alone would raise the division
error. -/
theorem c3_logical_short_circuit_witness :
    evalExpr (.logical (.literal tokFalse) tokAnd c3DivExpr) initState
      = (.ok (.bool false), initState)
    ∧ evalExpr c3DivExpr initState = (.error (Halt.host .zeroDiv), initState) :=
  ⟨c3_logical_short_circuit.1 (.literal tokFalse) tokAnd c3DivExpr initState
      (.bool false) initState rfl rfl rfl, rfl⟩

/-- Counterexample for C5: the claim says every number is truthy, so
`!0` must yield false; in the code `val == False` holds for the number
0 under Python equality, so `!0` yields true. -/
theorem c5_bang_zero_counterexample :
    evalExpr (.unary tokBang (.literal tokNum0)) initState
      = (.ok (.bool true), initState)
    ∧ Value.num 0 ≠ Value.nil ∧ Value.num 0 ≠ Value.bool false :=
  ⟨rfl, by decide, by decide⟩

/-- C5 as amended: `!` always yields a boolean, and yields true exactly
when the operand is nil, boolean false, or the number 0 (which the host
language equates with false); every other value, including every
non-zero number and every string, yields false. -/
theorem c5_bang_truthiness :
    (∀ v, pyBang v = true ↔ (v = .nil ∨ v = .bool false ∨ v = .num 0))
    ∧ (∀ e t s v s₁, evalExpr e s = (.ok v, s₁) → t.type = .BANG →
        evalExpr (.unary t e) s = (.ok (.bool (pyBang v)), s₁)) := by
  constructor
  · intro v
    cases v with
    | num q => simp [pyBang, pyEq, pyNumOfBool]
    | str s => simp [pyBang, pyEq]
    | bool b => cases b <;> simp [pyBang, pyEq, pyNumOfBool]
    | nil => simp [pyBang, pyEq]
  · intro e t s v s₁ he ht
    simp [evalExpr, he, ht]

/-- Witness for C5: the amended rule evaluated at the operand 0. -/
theorem c5_bang_truthiness_witness :
    (pyBang (.num 0) = true
      ↔ (Value.num 0 = .nil ∨ Value.num 0 = .bool false ∨ Value.num 0 = .num 0))
    ∧ evalExpr (.unary tokBang (.literal tokNum0)) initState
      = (.ok (.bool (pyBang (.num 0))), initState) :=
  ⟨c5_bang_truthiness.1 (.num 0),
   c5_bang_truthiness.2 (.literal tokNum0) tokBang initState (.num 0) initState
     rfl rfl⟩

/-- Counterexample for C6: the claim says operands of different runtime
types always compare unequal under `==`; in the code `true == 1`
evaluates to true, because Python compares booleans and numbers
numerically. -/
theorem c6_true_equals_one_counterexample :
    evalExpr (.binary (.literal tokTrue) tokEqEq (.literal tokNum1)) initState
      = (.ok (.bool true), initState)
    ∧ pytype (.bool true) ≠ pytype (.num 1) :=
  ⟨rfl, by decide⟩

/-- C6 as amended: `==`/`!=` never raise an error (any pair of operand
values yields a boolean), and operands of different runtime types
compare unequal except boolean-number pairs, which compare by the
boolean numeric value (true equals 1, false equals 0). -/
theorem c6_equality_total_and_typed :
    (∀ l t r s lv s₁ rv s₂, evalExpr l s = (.ok lv, s₁) →
        evalExpr r s₁ = (.ok rv, s₂) →
        (t.type = .EQUAL_EQUAL →
          evalExpr (.binary l t r) s = (.ok (.bool (pyEq lv rv)), s₂))
        ∧ (t.type = .BANG_EQUAL →
          evalExpr (.binary l t r) s = (.ok (.bool (!pyEq lv rv)), s₂)))
    ∧ (∀ v w, pytype v ≠ pytype w → isBoolNumPair v w = false → pyEq v w = false)
    ∧ (∀ b x, pyEq (.bool b) (.num x) = decide (pyNumOfBool b = x)
        ∧ pyEq (.num x) (.bool b) = decide (x = pyNumOfBool b)) := by
  refine ⟨?_, ?_, ?_⟩
  · intro l t r s lv s₁ rv s₂ hl hr
    constructor
    · intro ht
      simp [evalExpr, hl, hr, ht]
    · intro ht
      simp [evalExpr, hl, hr, ht]
  · intro v w hty hbn
    cases v <;> cases w <;> simp_all [pytype, isBoolNumPair, pyEq]
  · intro b x
    exact ⟨rfl, rfl⟩

/-- Witness for C6: the spec example `1 == "1"` evaluates without error
to false. -/
theorem c6_equality_total_and_typed_witness :
    evalExpr (.binary (.literal tokNum1) tokEqEq (.literal tokStr1)) initState
      = (.ok (.bool (pyEq (.num 1) (.str "1"))), initState)
    ∧ pyEq (.num 1) (.str "1") = false :=
  ⟨(c6_equality_total_and_typed.1 (.literal tokNum1) tokEqEq (.literal tokStr1)
      initState (.num 1) initState (.str "1") initState rfl rfl).1 rfl, rfl⟩

/-- C1: the claim says `Interpreter.interpret` executes the parsed
top-level statement list in order with fail-fast error reporting.  The
code cannot execute any statement: its jump table holds handlers only
for the four expression classes `Binary`, `Unary`, `Literal` and
`Grouping`, so handing it the parsed program (a list, as the driver
does) — or any single statement node — raises KeyError, which
`interpret` converts into the internal missing-handler diagnostic and a
failure result without ever running a statement. -/
theorem c1_interpret_cannot_run_statements :
    (∀ fuel stmts, Interpreter.interpret (fuel + 1) (.list stmts)
      = .ok (none, ⟨1, ["(INTERNAL ERROR) node list not in jump table"]⟩))
    ∧ (∀ fuel st, Interpreter.interpret (fuel + 1) (.stmt st)
      = .ok (none, ⟨1, ["(INTERNAL ERROR) node " ++ className (.stmt st)
          ++ " not in jump table"]⟩)) := by
  constructor
  · intro fuel stmts
    rfl
  · intro fuel st
    cases st <;> rfl

/-- C4: the claim says all six binary-operator layers are built
iteratively and left-associatively.  That holds of equality,
comparison, term and factor (`1 == 2 == 3;` parses as
`((1 == 2) == 3)`), but not of the logical layers: `1 and 2 and 3;`
parses right-associatively as `(1 and (2 and 3))` because
`logical_and` recurses into itself for its right operand, and
`1 or 2 or 3;` fails to parse at all because `logical_or` consumes at
most one `or` and the leftover operator trips the semicolon check. -/
theorem c4_logical_layers_not_left_associative :
    Parser.parse 30 c4EqToks 10
      = .ok (some [.generic (.binary (.binary (.literal tokNum1) tokEqEq
          (.literal tokNum2)) tokEqEq (.literal tokNum3))], ⟨10, []⟩)
    ∧ Parser.parse 30 c4AndToks 10
      = .ok (some [.generic (.logical (.literal tokNum1) tokAnd
          (.logical (.literal tokNum2) tokAnd (.literal tokNum3)))], ⟨10, []⟩)
    ∧ Parser.parse 30 c4OrToks 10
      = .ok (none, ⟨10, ["line 1: expected \x27;\x27 before or"]⟩) :=
  ⟨rfl, rfl, rfl⟩

/-- Counterexample for C7: parsing `; var x = 1;` recovers from the
malformed first statement and returns a non-none statement list
together with a non-empty error queue, so the claimed exclusive-or of
{non-empty queue with no statements, statements with empty queue} is
violated. -/
theorem c7_parse_contract_counterexample :
    Parser.parse 30 c7Toks 10
      = .ok (some [.generic .pyNone, .varDecl (some tokX) (.literal tokNum1)],
          ⟨10, ["line 1: misplaced symbol \x27;\x27",
                "line 1: expected \x27;\x27 before var"]⟩)
    ∧ (["line 1: misplaced symbol \x27;\x27",
        "line 1: expected \x27;\x27 before var"] : List String) ≠ [] :=
  ⟨rfl, by simp⟩

/-- C8: the claim says overflowing the parser error limit yields the
limit plus one sentinel diagnostic.  In the code the rejected push runs
`self.err.grow(1)` and then reads the nonexistent attribute
`self.error`, raising a host AttributeError: parsing `; print 1;` with
limit 1 crashes instead of queueing the sentinel. -/
theorem c8_trap_overflow_attribute_error :
    Parser.parse 30 c8Toks 1 = .error HostErr.attrErr := rfl

namespace Parser

theorem inv_pureF {α : Type} (a : α) : Inv (pure a : PRes α) := by
  intro s s' h
  exact POut.noConfusion h

theorem inv_bindF {α β : Type} {m : PRes α} {f : α → PRes β}
    (hm : Inv m) (hf : ∀ a, Inv (f a)) : Inv (m >>= f) := by
  intro s s' h
  have hb : PRes.bindF m f s = POut.perr s' := h
  unfold PRes.bindF at hb
  split at hb
  next a s₁ heq => exact hf a s₁ s' hb
  next s₁ heq =>
    injection hb with h1
    subst h1
    exact hm s _ heq
  next e s₁ heq => exact POut.noConfusion hb

theorem inv_curr_token : Inv curr_token := by
  intro s s' h
  unfold curr_token at h
  split at h <;> exact POut.noConfusion h

theorem inv_curr_type : Inv curr_type :=
  inv_bindF inv_curr_token fun t => inv_pureF t.type

theorem inv_advance : Inv advance := by
  intro s s' h
  unfold advance at h
  split at h <;> exact POut.noConfusion h

theorem inv_prev_token : Inv prev_token := by
  intro s s' h
  unfold prev_token at h
  split at h
  · split at h <;> exact POut.noConfusion h
  · exact POut.noConfusion h

theorem inv_fuelErr {α : Type} : Inv (fuelErr : PRes α) := by
  intro s s' h
  exact POut.noConfusion h

theorem inv_unboundLocal {α : Type} : Inv (unboundLocal : PRes α) := by
  intro s s' h
  exact POut.noConfusion h

theorem inv_ite (c : Prop) [Decidable c] {α : Type} {m n : PRes α}
    (hm : Inv m) (hn : Inv n) : Inv (if c then m else n) := by
  by_cases h : c
  · simpa [h] using hm
  · simpa [h] using hn

theorem sync_perr_err : ∀ fuel s s', sync fuel s = POut.perr s' → s'.err = s.err := by
  intro fuel
  induction fuel with
  | zero =>
    intro s s' h
    exact POut.noConfusion h
  | succ n ih =>
    intro s s' h
    unfold sync at h
    split at h
    · exact POut.noConfusion h
    · split_ifs at h
      all_goals first
        | exact POut.noConfusion h
        | (injection h with h1; subst h1; rfl)
        | exact ih { s with i := s.i + 1 } s' h

theorem push_accepted_queue (e : ErrorHandler) (l : Int) (m : String)
    (h : (e.push l m).1 = true) :
    (e.push l m).2.queue = e.queue ++ [ErrorHandler.fmt l m] := by
  by_cases hc : (e.queue.length : Int) = e.limit
  · exfalso
    rw [ErrorHandler.push] at h
    simp [hc] at h
  · rw [ErrorHandler.push]
    simp [hc, ErrorHandler.fmt]

theorem inv_trap (fuel : Nat) (msg : String) : Inv (trap fuel msg) := by
  intro s s' h
  unfold trap at h
  split at h
  · exact POut.noConfusion h
  next tok heq =>
    split_ifs at h with hacc
    have herr := sync_perr_err fuel _ _ h
    have hq := push_accepted_queue s.err tok.line msg hacc
    rw [show s'.err = (s.err.push tok.line msg).2 from herr, hq]
    simp

theorem inv_check_semicolon (fuel : Nat) : Inv (check_semicolon fuel) := by
  unfold check_semicolon
  exact inv_bindF inv_curr_type fun t => inv_ite _ inv_advance
    (inv_bindF inv_curr_token fun tok =>
      inv_ite _ (inv_trap fuel _) (inv_trap fuel _))

/-- Panic-mode invariant for every recursive-descent production: a
raised `ParseError` always leaves a non-empty diagnostic queue. -/
theorem parser_inv_all : ∀ fuel,
    Inv (program fuel) ∧ Inv (declaration fuel) ∧ Inv (var_declaration fuel)
    ∧ Inv (statement fuel) ∧ Inv (print_stmt fuel) ∧ Inv (block_stmt fuel)
    ∧ Inv (branch_stmt fuel) ∧ Inv (while_stmt fuel) ∧ Inv (generic_stmt fuel)
    ∧ Inv (expression fuel) ∧ Inv (assignment fuel)
    ∧ Inv (logical_or fuel) ∧ Inv (logical_and fuel)
    ∧ Inv (equality fuel) ∧ (∀ acc, Inv (equality_loop fuel acc))
    ∧ Inv (comparison fuel) ∧ (∀ acc, Inv (comparison_loop fuel acc))
    ∧ Inv (term fuel) ∧ (∀ acc, Inv (term_loop fuel acc))
    ∧ Inv (factor fuel) ∧ (∀ acc, Inv (factor_loop fuel acc))
    ∧ Inv (unary fuel) ∧ Inv (primary fuel) := by
  intro fuel
  induction fuel with
  | zero =>
    exact ⟨inv_fuelErr, inv_fuelErr, inv_fuelErr, inv_fuelErr, inv_fuelErr,
      inv_fuelErr, inv_fuelErr, inv_fuelErr, inv_fuelErr, inv_fuelErr,
      inv_fuelErr, inv_fuelErr, inv_fuelErr, inv_fuelErr, fun _ => inv_fuelErr,
      inv_fuelErr, fun _ => inv_fuelErr, inv_fuelErr, fun _ => inv_fuelErr,
      inv_fuelErr, fun _ => inv_fuelErr, inv_fuelErr, inv_fuelErr⟩
  | succ n ih =>
    obtain ⟨ihP, ihD, ihV, ihS, ihPr, ihB, ihBr, ihW, ihG, ihE, ihA, ihO,
      ihAn, ihEq, ihEqL, ihC, ihCL, ihT, ihTL, ihF, ihFL, ihU, ihPm⟩ := ih
    refine ⟨?_, ?_, ?_, ?_, ?_, ?_, ?_, ?_, ?_, ?_, ?_, ?_, ?_, ?_, ?_, ?_,
      ?_, ?_, ?_, ?_, ?_, ?_, ?_⟩
    · simp only [program]
      exact inv_bindF inv_curr_type fun t => inv_ite _ (inv_pureF _)
        (inv_bindF ihD fun d => inv_bindF ihP fun rest => inv_pureF _)
    · simp only [declaration]
      exact inv_bindF inv_curr_type fun t =>
        inv_ite _ (inv_bindF inv_advance fun _ => ihV) ihS
    · simp only [var_declaration]
      exact inv_bindF inv_curr_type fun t => inv_ite _
        (inv_bindF inv_curr_token fun name => inv_bindF inv_advance fun _ =>
          inv_bindF inv_curr_type fun t2 => inv_ite _
            (inv_bindF inv_advance fun _ => inv_bindF ihE fun y =>
              inv_bindF (inv_check_semicolon n) fun _ => inv_pureF _)
            (inv_bindF (inv_pureF _) fun y =>
              inv_bindF (inv_check_semicolon n) fun _ => inv_pureF _))
        (inv_bindF (inv_trap n _) fun _ => inv_pureF _)
    · simp only [statement]
      exact inv_bindF inv_curr_type fun t => inv_ite _
        (inv_bindF inv_advance fun _ => ihPr)
        (inv_ite _
          (inv_bindF inv_advance fun _ => inv_bindF ihB fun l => inv_pureF _)
          (inv_ite _ (inv_bindF inv_advance fun _ => ihBr)
            (inv_ite _ (inv_bindF inv_advance fun _ => ihW) ihG)))
    · simp only [print_stmt]
      exact inv_bindF ihE fun e =>
        inv_bindF (inv_check_semicolon n) fun _ => inv_pureF _
    · simp only [block_stmt]
      exact inv_bindF inv_curr_type fun t => inv_ite _
        (inv_bindF inv_advance fun _ => inv_pureF _)
        (inv_bindF ihD fun d => inv_bindF ihB fun rest => inv_pureF _)
    · simp only [branch_stmt]
      exact inv_bindF inv_curr_type fun t => inv_ite _
        (inv_bindF (inv_trap n _) fun _ => inv_pureF _)
        (inv_bindF inv_advance fun _ => inv_bindF ihE fun c =>
          inv_bindF inv_curr_type fun t2 => inv_ite _
            (inv_bindF (inv_trap n _) fun _ => inv_pureF _)
            (inv_bindF inv_advance fun _ => inv_bindF ihS fun tb =>
              inv_bindF inv_curr_type fun t3 => inv_ite _
                (inv_bindF inv_advance fun _ =>
                  inv_bindF ihS fun eb => inv_pureF _)
                (inv_pureF _)))
    · simp only [while_stmt]
      exact inv_bindF inv_curr_type fun t => inv_ite _
        (inv_bindF (inv_trap n _) fun _ => inv_pureF _)
        (inv_bindF inv_advance fun _ => inv_bindF ihE fun c =>
          inv_bindF inv_curr_type fun t2 => inv_ite _
            (inv_bindF (inv_trap n _) fun _ => inv_pureF _)
            (inv_bindF inv_advance fun _ =>
              inv_bindF ihS fun body => inv_pureF _))
    · simp only [generic_stmt]
      exact inv_bindF ihE fun e =>
        inv_bindF (inv_check_semicolon n) fun _ => inv_pureF _
    · simp only [expression]
      exact ihA
    · simp only [assignment]
      refine inv_bindF ihO fun lval => inv_bindF inv_curr_type fun t =>
        inv_ite _ ?_ (inv_pureF _)
      refine inv_bindF inv_advance fun _ => inv_bindF ihA fun rval => ?_
      cases lval <;>
        first
          | exact inv_pureF _
          | exact inv_bindF (inv_trap n _) fun _ => inv_pureF _
    · simp only [logical_or]
      exact inv_bindF ihAn fun e => inv_bindF inv_curr_type fun t => inv_ite _
        (inv_bindF inv_advance fun _ => inv_bindF inv_prev_token fun tok =>
          inv_bindF ihAn fun r => inv_pureF _)
        (inv_pureF _)
    · simp only [logical_and]
      exact inv_bindF ihEq fun e => inv_bindF inv_curr_type fun t => inv_ite _
        (inv_bindF inv_advance fun _ => inv_bindF inv_prev_token fun tok =>
          inv_bindF ihAn fun r => inv_pureF _)
        (inv_pureF _)
    · simp only [equality]
      exact inv_bindF ihC fun e => ihEqL e
    · intro acc
      simp only [equality_loop]
      exact inv_bindF inv_curr_type fun t => inv_ite _
        (inv_bindF inv_advance fun _ => inv_bindF inv_prev_token fun op =>
          inv_bindF ihC fun r => ihEqL _)
        (inv_pureF _)
    · simp only [comparison]
      exact inv_bindF ihT fun e => ihCL e
    · intro acc
      simp only [comparison_loop]
      exact inv_bindF inv_curr_type fun t => inv_ite _
        (inv_bindF inv_advance fun _ => inv_bindF inv_prev_token fun op =>
          inv_bindF ihT fun r => ihCL _)
        (inv_pureF _)
    · simp only [term]
      exact inv_bindF ihF fun e => ihTL e
    · intro acc
      simp only [term_loop]
      exact inv_bindF inv_curr_type fun t => inv_ite _
        (inv_bindF inv_advance fun _ => inv_bindF inv_prev_token fun op =>
          inv_bindF ihF fun r => ihTL _)
        (inv_pureF _)
    · simp only [factor]
      exact inv_bindF ihU fun e => ihFL e
    · intro acc
      simp only [factor_loop]
      exact inv_bindF inv_curr_type fun t => inv_ite _
        (inv_bindF inv_advance fun _ => inv_bindF inv_prev_token fun op =>
          inv_bindF ihU fun r => ihFL _)
        (inv_pureF _)
    · simp only [unary]
      exact inv_bindF inv_curr_type fun t => inv_ite _
        (inv_bindF inv_advance fun _ => inv_bindF inv_prev_token fun op =>
          inv_bindF ihU fun r => inv_pureF _)
        ihPm
    · simp only [primary]
      exact inv_bindF inv_curr_type fun t => inv_ite _
        (inv_bindF inv_curr_token fun tok =>
          inv_bindF inv_advance fun _ => inv_pureF _)
        (inv_ite _
          (inv_bindF inv_advance fun _ => inv_bindF ihE fun e =>
            inv_bindF inv_curr_type fun t2 => inv_ite _
              (inv_bindF inv_advance fun _ => inv_pureF _)
              (inv_bindF (inv_trap n _) fun _ => inv_pureF _))
          (inv_ite _
            (inv_bindF inv_curr_token fun tok =>
              inv_bindF inv_advance fun _ => inv_pureF _)
            (inv_ite _
              (inv_bindF inv_prev_token fun tok =>
                inv_bindF (inv_trap n _) fun _ => inv_unboundLocal)
              (inv_bindF inv_curr_token fun tok =>
                inv_bindF (inv_trap n _) fun _ => inv_pureF _))))

end Parser

/-- C7 as amended: a parse returning no statements always carries a
non-empty diagnostic queue (dropping the claimed converse, which the
counterexample refutes: a recovered parse can return statements
alongside queued diagnostics); a token stream exhausted during
unresolved panic yields the no-statements result. -/
theorem c7_parse_none_has_diagnostics :
    (∀ fuel tokens limit q,
      Parser.parse fuel tokens limit = .ok (none, q) → q.queue ≠ [])
    ∧ (∀ fuel tokens limit s',
      Parser.program fuel ⟨tokens, 0, ⟨limit, []⟩⟩ = POut.perr s' →
      Parser.parse fuel tokens limit = .ok (none, s'.err)) := by
  constructor
  · intro fuel tokens limit q h
    unfold Parser.parse at h
    split at h
    · simp at h
    next s heq =>
      have hq : q = s.err := by
        injection h with h1
        injection h1 with h2 h3
        exact h3.symm
      rw [hq]
      exact (Parser.parser_inv_all fuel).1 _ _ heq
    · exact Except.noConfusion h
  · intro fuel tokens limit s' h
    unfold Parser.parse
    rw [h]

/-- Witness for C7 as amended: parsing `3 -` panics at the end of file
and returns no statements with one queued diagnostic. -/
theorem c7_parse_none_has_diagnostics_witness :
    (ErrorHandler.mk 10
      ["line 1: misplaced symbol \x27-\x27 at end of file"]).queue ≠ []
    ∧ Parser.parse 30 c7PanicToks 10
      = .ok (none, (PState.mk c7PanicToks 2
          ⟨10, ["line 1: misplaced symbol \x27-\x27 at end of file"]⟩).err) :=
  ⟨c7_parse_none_has_diagnostics.1 30 c7PanicToks 10
      ⟨10, ["line 1: misplaced symbol \x27-\x27 at end of file"]⟩ rfl,
   c7_parse_none_has_diagnostics.2 30 c7PanicToks 10
      ⟨c7PanicToks, 2, ⟨10, ["line 1: misplaced symbol \x27-\x27 at end of file"]⟩⟩
      rfl⟩

/-- Witness for C10: a limit of `-1` accepts three pushes, including one
with the suppressed-line sentinel. -/
theorem c10_negative_limit_unbounded_witness :
    (ErrorHandler.pushAll ⟨-1, []⟩ [(1, "a"), (-1, "b"), (2, "c")]).1
      = List.replicate 3 true
    ∧ (ErrorHandler.pushAll ⟨-1, []⟩ [(1, "a"), (-1, "b"), (2, "c")]).2
      = ⟨-1, [] ++ [(1, "a"), (-1, "b"), (2, "c")].map
          (fun p => ErrorHandler.fmt p.1 p.2)⟩ :=
  c10_negative_limit_unbounded ⟨-1, []⟩ [(1, "a"), (-1, "b"), (2, "c")] (by decide)

end Pylox
